import Mathlib

/-!
Verification of the spla operation model and scheduling core
(`src/op.cpp`, `include/spla/op.hpp`, `include/spla/schedule.hpp`).

The C++ machine types are embedded as follows: `T_INT` (a 32-bit
two's-complement integer) as `Int` with an explicit wrap-around where overflow
matters; `T_UINT` (a 32-bit unsigned integer) as `Nat` with explicit
reductions mod `2 ^ 32` where overflow matters; fallible arithmetic
(division by zero) as `Option`-valued functions.
-/

namespace Spla

/-- `INT_MAX` for the 32-bit signed type `T_INT` (`<climits>`). -/
def INT_MAX : Int := 2147483647

/-- `INT_MIN` for the 32-bit signed type `T_INT`. -/
def INT_MIN : Int := -2147483648

/-- `UINT_MAX` for the 32-bit unsigned type `T_UINT`. -/
def UINT_MAX : Nat := 4294967295

/-- Two's-complement wrap of a mathematical integer into the 32-bit signed
range; this is what 32-bit signed machine arithmetic computes when it
overflows. -/
def wrap32 (x : Int) : Int := (x + 2147483648) % 4294967296 - 2147483648

/-- Modelled from the spec: the primitive-type system (`type.hpp`, not among
the visible sources) assigns every type descriptor a canonical code string,
consumed by `get_code()` when operation keys are built; this is `T_INT`'s
code. Distinct types have distinct codes. -/
def codeInt : String := "I"

/-- Modelled from the spec: the canonical code string of `T_UINT`. -/
def codeUint : String := "U"

/-- Modelled from the spec: the canonical code string of `T_FLOAT`. -/
def codeFloat : String := "F"

/-- Modelled from the spec: the canonical code string of the boolean result
type of a select operation, as the spec's description of `key` refers to the
result type of every variant. -/
def codeBool : String := "B"

/-- Modelled from the spec: `T_FLOAT` is an IEEE floating-point type; the
registered float select predicates only compare against `0` and against
negative infinity, so for them we model the float values as the two
infinities plus finite values represented exactly by integers. -/
inductive FloatVal
  | minf
  | pinf
  | num (v : Int)
deriving DecidableEq

/-- The comparison `a == 0` of the float model. -/
def FloatVal.eqZero : FloatVal → Bool
  | .num v => decide (v = 0)
  | _ => false

/-- The comparison `a > 0` of the float model. -/
def FloatVal.gtZero : FloatVal → Bool
  | .minf => false
  | .pinf => true
  | .num v => decide (0 < v)

/-- The comparison `a >= 0` of the float model. -/
def FloatVal.geZero : FloatVal → Bool
  | .minf => false
  | .pinf => true
  | .num v => decide (0 ≤ v)

/-- The comparison `a < 0` of the float model. -/
def FloatVal.ltZero : FloatVal → Bool
  | .minf => true
  | .pinf => false
  | .num v => decide (v < 0)

/-- The comparison `a <= 0` of the float model. -/
def FloatVal.leZero : FloatVal → Bool
  | .minf => true
  | .pinf => false
  | .num v => decide (v ≤ 0)

/-- `TOpUnary<A, R>` (`top.hpp` instantiations used by `op.cpp`): a unary
operation object with its name, device source, host function and canonical
key, as filled in by `OpUnary::make_*`. -/
structure TOpUnary (A R : Type) where
  name : String
  source : String
  function : A → R
  key : String

/-- `TOpBinary<A, B, R>`: a binary operation object as filled in by
`OpBinary::make_*`. -/
structure TOpBinary (A B R : Type) where
  name : String
  source : String
  function : A → B → R
  key : String

/-- `TOpSelect<A>`: a select (predicate) operation object with boolean
result, as filled in by `OpSelect::make_*`. -/
structure TOpSelect (A : Type) where
  name : String
  source : String
  function : A → Bool
  key : String

/-- `OpUnary::make_int` (`op.cpp` lines 350-357): stores name, function and
source unchanged and sets
`key = name + "_" + get_type_arg_0()->get_code() + get_type_res()->get_code()`,
both codes being `T_INT`'s. -/
def OpUnary.make_int (name code : String) (function : Int → Int) :
    TOpUnary Int Int :=
  { name := name, source := code, function := function,
    key := name ++ "_" ++ codeInt ++ codeInt }

/-- `OpUnary::make_uint` (`op.cpp` lines 358-365). -/
def OpUnary.make_uint (name code : String) (function : Nat → Nat) :
    TOpUnary Nat Nat :=
  { name := name, source := code, function := function,
    key := name ++ "_" ++ codeUint ++ codeUint }

/-- `OpUnary::make_float` (`op.cpp` lines 366-373). -/
def OpUnary.make_float (name code : String) (function : FloatVal → FloatVal) :
    TOpUnary FloatVal FloatVal :=
  { name := name, source := code, function := function,
    key := name ++ "_" ++ codeFloat ++ codeFloat }

/-- `OpBinary::make_int` (`op.cpp` lines 375-382):
`key = name + "_" + arg0 code + arg1 code + result code`. -/
def OpBinary.make_int (name code : String) (function : Int → Int → Int) :
    TOpBinary Int Int Int :=
  { name := name, source := code, function := function,
    key := name ++ "_" ++ codeInt ++ codeInt ++ codeInt }

/-- `OpBinary::make_uint` (`op.cpp` lines 383-390). -/
def OpBinary.make_uint (name code : String) (function : Nat → Nat → Nat) :
    TOpBinary Nat Nat Nat :=
  { name := name, source := code, function := function,
    key := name ++ "_" ++ codeUint ++ codeUint ++ codeUint }

/-- `OpBinary::make_float` (`op.cpp` lines 391-398). -/
def OpBinary.make_float (name code : String)
    (function : FloatVal → FloatVal → FloatVal) :
    TOpBinary FloatVal FloatVal FloatVal :=
  { name := name, source := code, function := function,
    key := name ++ "_" ++ codeFloat ++ codeFloat ++ codeFloat }

/-- `OpSelect::make_int` (`op.cpp` lines 400-407): the key is
`name + "_" + get_type_arg_0()->get_code()` — only the argument type code,
with no result type code appended. -/
def OpSelect.make_int (name code : String) (function : Int → Bool) :
    TOpSelect Int :=
  { name := name, source := code, function := function,
    key := name ++ "_" ++ codeInt }

/-- `OpSelect::make_uint` (`op.cpp` lines 408-415). -/
def OpSelect.make_uint (name code : String) (function : Nat → Bool) :
    TOpSelect Nat :=
  { name := name, source := code, function := function,
    key := name ++ "_" ++ codeUint }

/-- `OpSelect::make_float` (`op.cpp` lines 416-423). -/
def OpSelect.make_float (name code : String) (function : FloatVal → Bool) :
    TOpSelect FloatVal :=
  { name := name, source := code, function := function,
    key := name ++ "_" ++ codeFloat }

/-- The key the spec's words ascribe to a select operation built by
`OpSelect::make_int`: the name concatenated with the type codes of the
argument and of the boolean result. -/
def specSelectKeyInt (name : String) : String :=
  name ++ "_" ++ codeInt ++ codeBool

/-- The three domain families of the factory triads. -/
inductive Domain
  | int
  | uint
  | float
deriving DecidableEq

/-- The canonical code of a domain family's element type. -/
def domCode : Domain → String
  | .int => codeInt
  | .uint => codeUint
  | .float => codeFloat

/-- The three operation variants. -/
inductive Variant
  | unary
  | binary
  | select
deriving DecidableEq

/-- The part of a factory-produced key that follows the operation name:
`"_"` plus the argument type code(s) plus (for unary and binary) the result
type code, exactly as computed by the nine `make_*` factories. -/
def keySuffix : Variant → Domain → String
  | .unary, d => "_" ++ domCode d ++ domCode d
  | .binary, d => "_" ++ domCode d ++ domCode d ++ domCode d
  | .select, d => "_" ++ domCode d

/-- The canonical key a factory of the given variant and domain produces for
a given operation name. -/
def opKey (v : Variant) (name : String) (d : Domain) : String :=
  name ++ keySuffix v d

/-! ## Host functions of the built-in graph-algorithm operators
(`register_ops`, `op.cpp` lines 260-316): the lambda bodies passed through
the `DECL_OP_BIN_S` registration macro. -/

/-- Host function of `FIRST_NON_MAX_INT` (`op.cpp` 260-265):
`if (a == INT_MAX || b == INT_MAX) return INT_MAX; return a;`. -/
def FIRST_NON_MAX_INT (a b : Int) : Int :=
  if a = INT_MAX ∨ b = INT_MAX then INT_MAX else a

/-- Host function of `MIN_NON_MAX_INT` (`op.cpp` 266-269):
`if (a == INT_MAX || b == INT_MAX) return INT_MAX; return min(a, b);`. -/
def MIN_NON_MAX_INT (a b : Int) : Int :=
  if a = INT_MAX ∨ b = INT_MAX then INT_MAX else min a b

/-- Host function of `CONST_MAX_INT` (`op.cpp` 270): `return INT_MAX;`. -/
def CONST_MAX_INT (_a _b : Int) : Int := INT_MAX

/-- Host function of `SECOND_MAX_INT` (`op.cpp` 271-276):
`if (a == INT_MAX) return b; return a;`. -/
def SECOND_MAX_INT (a b : Int) : Int :=
  if a = INT_MAX then b else a

/-- Host function of `MIN_NON_ZERO_INT` (`op.cpp` 277-282):
`if (a == 0) return b; return min(a, b);`. -/
def MIN_NON_ZERO_INT (a b : Int) : Int :=
  if a = 0 then b else min a b

/-- Host function of `S1ST_IF_SND_MAX_INT` (`op.cpp` 284-289):
`if (b == INT_MAX) return a; return INT_MAX;`. -/
def S1ST_IF_SND_MAX_INT (a b : Int) : Int :=
  if b = INT_MAX then a else INT_MAX

/-- Host function of `FST_MINUS_ONE_INT` (`op.cpp` 291-296):
`if (a == INT_MAX && b == INT_MAX) return INT_MAX; return a - 1;` — the
subtraction is 32-bit machine subtraction, hence the wrap. -/
def FST_MINUS_ONE_INT (a b : Int) : Int :=
  if a = INT_MAX ∧ b = INT_MAX then INT_MAX else wrap32 (a - 1)

/-- Host function of `SELECT_MIN_WEIGHT_UINT` (`op.cpp` 298-308): unpacks the
11-bit weight (high bits) and 21-bit value (low bits) of both operands and
repacks the pair of the operand with the not-larger weight; unsigned 32-bit
arithmetic, hence the mod on the repacked sums. -/
def SELECT_MIN_WEIGHT_UINT (a b : Nat) : Nat :=
  let weight_a := a >>> 21
  let weight_b := b >>> 21
  let value_a := a &&& 0x1FFFFF
  let value_b := b &&& 0x1FFFFF
  if weight_a ≤ weight_b then ((weight_a <<< 21) + value_a) % 4294967296
  else ((weight_b <<< 21) + value_b) % 4294967296

/-- Host function of `CONSTRUCT_PAIR_UINT` (`op.cpp` 310-316): repacks the
weight of `b` with the value of `a`. -/
def CONSTRUCT_PAIR_UINT (a b : Nat) : Nat :=
  let weight_b := b >>> 21
  let value_a := a &&& 0x1FFFFF
  ((weight_b <<< 21) + value_a) % 4294967296

/-- Host function of `DIV_INT` (`op.cpp` 220): `return a / b;` — C++ signed
division truncates toward zero, is undefined for `b == 0` (modelled as
`none`), and wraps on the single overflowing case. -/
def DIV_INT (a b : Int) : Option Int :=
  if b = 0 then none else some (wrap32 (Int.tdiv a b))

/-- Host function of `DIV_UINT` (`op.cpp` 221): `return a / b;` — undefined
for `b == 0` (modelled as `none`). -/
def DIV_UINT (a b : Nat) : Option Nat :=
  if b = 0 then none else some (a / b)

/-- Host function of `MINV_INT` (`op.cpp` 181): `return 1 / a;` — undefined
for `a == 0` (modelled as `none`). -/
def MINV_INT (a : Int) : Option Int :=
  if a = 0 then none else some (Int.tdiv 1 a)

/-- Host function of `MINV_UINT` (`op.cpp` 182): `return 1 / a;`. -/
def MINV_UINT (a : Nat) : Option Nat :=
  if a = 0 then none else some (1 / a)

/-! ## The registered built-in select operations
(`register_ops`, `op.cpp` lines 318-347). The `DECL_OP_SELECT` registration
macro lives in `core/top.hpp`, which is not among the visible sources; it is
modelled from the spec as a call of the per-domain factory with the written
name token and lambda body. -/

/-- `EQZERO_INT` (`op.cpp` 318): `{ return a == 0; }`. -/
def EQZERO_INT : TOpSelect Int :=
  OpSelect.make_int "EQZERO" "return a == 0;" (fun a => decide (a = 0))

/-- `NQZERO_INT` (`op.cpp` 321). -/
def NQZERO_INT : TOpSelect Int :=
  OpSelect.make_int "NQZERO" "return a != 0;" (fun a => decide (a ≠ 0))

/-- `GTZERO_INT` (`op.cpp` 324). -/
def GTZERO_INT : TOpSelect Int :=
  OpSelect.make_int "GTZERO" "return a > 0;" (fun a => decide (0 < a))

/-- `GEZERO_INT` (`op.cpp` 327). -/
def GEZERO_INT : TOpSelect Int :=
  OpSelect.make_int "GEZERO" "return a >= 0;" (fun a => decide (0 ≤ a))

/-- `LTZERO_INT` (`op.cpp` 330). -/
def LTZERO_INT : TOpSelect Int :=
  OpSelect.make_int "LTZERO" "return a < 0;" (fun a => decide (a < 0))

/-- `LEZERO_INT` (`op.cpp` 333). -/
def LEZERO_INT : TOpSelect Int :=
  OpSelect.make_int "LEZERO" "return a <= 0;" (fun a => decide (a ≤ 0))

/-- `ALWAYS_INT` (`op.cpp` 336): `{ return 1; }`. -/
def ALWAYS_INT : TOpSelect Int :=
  OpSelect.make_int "ALWAYS" "return 1;" (fun _ => true)

/-- `NEVER_INT` (`op.cpp` 339): `{ return 0; }`. -/
def NEVER_INT : TOpSelect Int :=
  OpSelect.make_int "NEVER" "return 0;" (fun _ => false)

/-- `EQUALS_MAX_INT` (`op.cpp` 344): `{ return a == INT_MAX; }`. -/
def EQUALS_MAX_INT : TOpSelect Int :=
  OpSelect.make_int "EQUALS_MAX_INT" "return a == INT_MAX;"
    (fun a => decide (a = INT_MAX))

/-- `NEQUALS_MAX_INT` (`op.cpp` 346, registered under the name token
`NEQUALS_MAX`): `{ return a != INT_MAX; }`. -/
def NEQUALS_MAX_INT : TOpSelect Int :=
  OpSelect.make_int "NEQUALS_MAX" "return a != INT_MAX;"
    (fun a => decide (a ≠ INT_MAX))

/-- `EQZERO_UINT` (`op.cpp` 319). -/
def EQZERO_UINT : TOpSelect Nat :=
  OpSelect.make_uint "EQZERO" "return a == 0;" (fun a => decide (a = 0))

/-- `NQZERO_UINT` (`op.cpp` 322). -/
def NQZERO_UINT : TOpSelect Nat :=
  OpSelect.make_uint "NQZERO" "return a != 0;" (fun a => decide (a ≠ 0))

/-- `GTZERO_UINT` (`op.cpp` 325). -/
def GTZERO_UINT : TOpSelect Nat :=
  OpSelect.make_uint "GTZERO" "return a > 0;" (fun a => decide (0 < a))

/-- `GEZERO_UINT` (`op.cpp` 328); trivially true on an unsigned type. -/
def GEZERO_UINT : TOpSelect Nat :=
  OpSelect.make_uint "GEZERO" "return a >= 0;" (fun a => decide (0 ≤ a))

/-- `LTZERO_UINT` (`op.cpp` 331); trivially false on an unsigned type. -/
def LTZERO_UINT : TOpSelect Nat :=
  OpSelect.make_uint "LTZERO" "return a < 0;" (fun a => decide (a < 0))

/-- `LEZERO_UINT` (`op.cpp` 334). -/
def LEZERO_UINT : TOpSelect Nat :=
  OpSelect.make_uint "LEZERO" "return a <= 0;" (fun a => decide (a ≤ 0))

/-- `ALWAYS_UINT` (`op.cpp` 337). -/
def ALWAYS_UINT : TOpSelect Nat :=
  OpSelect.make_uint "ALWAYS" "return 1;" (fun _ => true)

/-- `NEVER_UINT` (`op.cpp` 340). -/
def NEVER_UINT : TOpSelect Nat :=
  OpSelect.make_uint "NEVER" "return 0;" (fun _ => false)

/-- `EQUALS_MAX_UINT` (`op.cpp` 345, registered under the name token
`EQUALS_MAX`): `{ return a == UINT_MAX; }`. -/
def EQUALS_MAX_UINT : TOpSelect Nat :=
  OpSelect.make_uint "EQUALS_MAX" "return a == UINT_MAX;"
    (fun a => decide (a = UINT_MAX))

/-- `NEQUALS_MAX_UINT` (`op.cpp` 347, registered under the name token
`NEQUALS_MAX`): `{ return a != UINT_MAX; }`. -/
def NEQUALS_MAX_UINT : TOpSelect Nat :=
  OpSelect.make_uint "NEQUALS_MAX" "return a != UINT_MAX;"
    (fun a => decide (a ≠ UINT_MAX))

/-- `EQZERO_FLOAT` (`op.cpp` 320). -/
def EQZERO_FLOAT : TOpSelect FloatVal :=
  OpSelect.make_float "EQZERO" "return a == 0;" FloatVal.eqZero

/-- `NQZERO_FLOAT` (`op.cpp` 323). -/
def NQZERO_FLOAT : TOpSelect FloatVal :=
  OpSelect.make_float "NQZERO" "return a != 0;" (fun a => ! a.eqZero)

/-- `GTZERO_FLOAT` (`op.cpp` 326). -/
def GTZERO_FLOAT : TOpSelect FloatVal :=
  OpSelect.make_float "GTZERO" "return a > 0;" FloatVal.gtZero

/-- `GEZERO_FLOAT` (`op.cpp` 329). -/
def GEZERO_FLOAT : TOpSelect FloatVal :=
  OpSelect.make_float "GEZERO" "return a >= 0;" FloatVal.geZero

/-- `LTZERO_FLOAT` (`op.cpp` 332). -/
def LTZERO_FLOAT : TOpSelect FloatVal :=
  OpSelect.make_float "LTZERO" "return a < 0;" FloatVal.ltZero

/-- `LEZERO_FLOAT` (`op.cpp` 335). -/
def LEZERO_FLOAT : TOpSelect FloatVal :=
  OpSelect.make_float "LEZERO" "return a <= 0;" FloatVal.leZero

/-- `ALWAYS_FLOAT` (`op.cpp` 338). -/
def ALWAYS_FLOAT : TOpSelect FloatVal :=
  OpSelect.make_float "ALWAYS" "return 1;" (fun _ => true)

/-- `NEVER_FLOAT` (`op.cpp` 341). -/
def NEVER_FLOAT : TOpSelect FloatVal :=
  OpSelect.make_float "NEVER" "return 0;" (fun _ => false)

/-- `EQUALS_MINF_FLOAT` (`op.cpp` 343): `{ return a == -INFINITY; }`. -/
def EQUALS_MINF_FLOAT : TOpSelect FloatVal :=
  OpSelect.make_float "EQUALS_MINF_FLOAT" "return a == -INFINITY;"
    (fun a => decide (a = FloatVal.minf))

/-- All select operations `register_ops` registers for the signed-integer
domain, in registration order. -/
def registeredSelectsInt : List (TOpSelect Int) :=
  [EQZERO_INT, NQZERO_INT, GTZERO_INT, GEZERO_INT, LTZERO_INT, LEZERO_INT,
   ALWAYS_INT, NEVER_INT, EQUALS_MAX_INT, NEQUALS_MAX_INT]

/-- All select operations `register_ops` registers for the unsigned-integer
domain. -/
def registeredSelectsUint : List (TOpSelect Nat) :=
  [EQZERO_UINT, NQZERO_UINT, GTZERO_UINT, GEZERO_UINT, LTZERO_UINT,
   LEZERO_UINT, ALWAYS_UINT, NEVER_UINT, EQUALS_MAX_UINT, NEQUALS_MAX_UINT]

/-- All select operations `register_ops` registers for the float domain:
note that `EQUALS_MINF_FLOAT` is the only sentinel-related float predicate
registered — `op.cpp` lines 343-347 register no negated float counterpart. -/
def registeredSelectsFloat : List (TOpSelect FloatVal) :=
  [EQZERO_FLOAT, NQZERO_FLOAT, GTZERO_FLOAT, GEZERO_FLOAT, LTZERO_FLOAT,
   LEZERO_FLOAT, ALWAYS_FLOAT, NEVER_FLOAT, EQUALS_MINF_FLOAT]

/-! ## Bit-packing convention of the weighted-value operators -/

/-- The bit-packing convention stated for the weighted-value operators: an
11-bit weight in the high bits and a 21-bit value in the low bits,
`word = (weight << 21) | value`. -/
def pack (weight value : Nat) : Nat := (weight <<< 21) ||| value

/-- Unpacking with the code's expressions from `SELECT_MIN_WEIGHT_UINT` and
`CONSTRUCT_PAIR_UINT`: `word >> 21` for the weight and `word & 0x1FFFFF` for
the value. -/
def unpack (word : Nat) : Nat × Nat := (word >>> 21, word &&& 0x1FFFFF)

/-! ## Schedule model -/

/-- `Status` (`config.hpp`, not among the visible sources). Modelled from the
spec: all fallible operations report a status code; the error kinds are
`InvalidArgument`, `NotSupported` and `ExecutionFailed`, plus the success
code. -/
inductive Status
  | Ok
  | InvalidArgument
  | NotSupported
  | ExecutionFailed
deriving DecidableEq

/-- Modelled from the spec: a `ScheduleTask` binds one operation (here
reduced to its name and arity) to an ordered list of argument references
(abstract object identities). -/
structure ScheduleTask where
  name : String
  opArity : Nat
  args : List Nat

/-- Modelled from the spec: a task is well formed when its bound-argument
count matches its operation's arity. -/
def taskValid (t : ScheduleTask) : Bool := t.args.length = t.opArity

/-- Modelled from the spec: a `Schedule` accumulates an ordered sequence of
steps (each a list of tasks) and a submitted flag set by `submit()`. -/
structure Schedule where
  steps : List (List ScheduleTask)
  submitted : Bool

/-- Modelled from the spec: `Schedule::step_task` appends the task as a new
step of size one; it fails synchronously with `InvalidArgument` and leaves
the schedule unchanged when the task is malformed. -/
def step_task (s : Schedule) (t : ScheduleTask) : Status × Schedule :=
  if taskValid t then (Status.Ok, { s with steps := s.steps ++ [[t]] })
  else (Status.InvalidArgument, s)

/-- Modelled from the spec: `Schedule::step_tasks` appends the collection as
a single new step; it fails synchronously with `InvalidArgument` and leaves
the schedule unchanged when the collection is malformed (contains a task
whose bound-argument count does not match its operation's arity). -/
def step_tasks (s : Schedule) (ts : List ScheduleTask) : Status × Schedule :=
  if ts.all taskValid then (Status.Ok, { s with steps := s.steps ++ [ts] })
  else (Status.InvalidArgument, s)

/-! ## Helper lemmas -/

/-- `wrap32` is the identity on the 32-bit signed range. -/
theorem wrap32_eq_self {x : Int} (h1 : INT_MIN ≤ x) (h2 : x ≤ INT_MAX) :
    wrap32 x = x := by
  simp only [wrap32, INT_MIN, INT_MAX] at *
  omega

/-- The mask `0x1FFFFF` keeps exactly the low 21 bits. -/
theorem and_mask21 (x : Nat) : x &&& 0x1FFFFF = x % 2 ^ 21 := by
  have h := Nat.and_pow_two_sub_one_eq_mod x 21
  norm_num at h ⊢
  exact h

/-- Splitting a word at bit 21 and re-adding the parts restores the word:
the repacking step of `SELECT_MIN_WEIGHT_UINT` reproduces its input. -/
theorem repack_split (x : Nat) :
    ((x >>> 21) <<< 21) + (x &&& 0x1FFFFF) = x := by
  rw [and_mask21, Nat.shiftRight_eq_div_pow, Nat.shiftLeft_eq, Nat.mul_comm]
  exact Nat.div_add_mod x (2 ^ 21)

/-! ## Claims about the sentinel operators -/

/-- C2 counterexample: `SECOND_MAX_INT` consumes the sentinel convention
(it tests `a == INT_MAX`), yet on the sentinel operand pair
`(INT_MAX, 0)` it returns `0`, not the sentinel. -/
theorem second_max_breaks_propagation :
    SECOND_MAX_INT INT_MAX 0 = 0 ∧ (0 : Int) ≠ INT_MAX := by
  refine ⟨?_, by decide⟩
  unfold SECOND_MAX_INT
  rw [if_pos rfl]

/-- C2 (amended): of the built-in sentinel-consuming integer operators,
exactly `FIRST_NON_MAX_INT`, `MIN_NON_MAX_INT` and `CONST_MAX_INT` propagate
the sentinel (any sentinel operand yields the sentinel); `SECOND_MAX_INT`,
`S1ST_IF_SND_MAX_INT` and `FST_MINUS_ONE_INT` instead return a non-sentinel
operand or decrement even when an operand is the sentinel. -/
theorem sentinel_propagation_amended :
    (∀ a b : Int, a = INT_MAX ∨ b = INT_MAX →
      FIRST_NON_MAX_INT a b = INT_MAX ∧ MIN_NON_MAX_INT a b = INT_MAX ∧
      CONST_MAX_INT a b = INT_MAX) ∧
    (∀ b : Int, SECOND_MAX_INT INT_MAX b = b) ∧
    (∀ a : Int, S1ST_IF_SND_MAX_INT a INT_MAX = a) ∧
    (∀ b : Int, b ≠ INT_MAX → FST_MINUS_ONE_INT INT_MAX b = INT_MAX - 1) := by
  refine ⟨?_, ?_, ?_, ?_⟩
  · intro a b h
    refine ⟨?_, ?_, rfl⟩
    · unfold FIRST_NON_MAX_INT; rw [if_pos h]
    · unfold MIN_NON_MAX_INT; rw [if_pos h]
  · intro b
    unfold SECOND_MAX_INT; rw [if_pos rfl]
  · intro a
    unfold S1ST_IF_SND_MAX_INT; rw [if_pos rfl]
  · intro b hb
    unfold FST_MINUS_ONE_INT
    rw [if_neg (by simp [hb])]
    rw [wrap32_eq_self (by decide) (by decide)]

/-- C2 witness: the amended propagation statement at concrete inputs. -/
theorem sentinel_propagation_amended_witness :
    FIRST_NON_MAX_INT INT_MAX 5 = INT_MAX ∧ SECOND_MAX_INT INT_MAX 5 = 5 ∧
    S1ST_IF_SND_MAX_INT 5 INT_MAX = 5 ∧ (5 : Int) ≠ INT_MAX ∧
    FST_MINUS_ONE_INT INT_MAX 5 = INT_MAX - 1 := by
  have h := sentinel_propagation_amended
  exact ⟨(h.1 INT_MAX 5 (Or.inl rfl)).1, h.2.1 5, h.2.2.1 5, by decide,
    h.2.2.2 5 (by decide)⟩

/-- C3: `MIN_NON_MAX_INT(SENTINEL, x) = SENTINEL` for every `x`;
`FIRST_NON_MAX_INT(x, SENTINEL) = SENTINEL` for every `x`;
`FST_MINUS_ONE_INT(SENTINEL, SENTINEL) = SENTINEL`; and for every `(a, b)`
not both sentinel the result is the machine decrement `a - 1` (which, for
`a` in the signed 32-bit range above `INT_MIN`, is the mathematical
`a - 1`). -/
theorem sentinel_ops_algebra :
    (∀ x : Int, MIN_NON_MAX_INT INT_MAX x = INT_MAX) ∧
    (∀ x : Int, FIRST_NON_MAX_INT x INT_MAX = INT_MAX) ∧
    FST_MINUS_ONE_INT INT_MAX INT_MAX = INT_MAX ∧
    (∀ a b : Int, ¬(a = INT_MAX ∧ b = INT_MAX) →
      FST_MINUS_ONE_INT a b = wrap32 (a - 1)) ∧
    (∀ a b : Int, INT_MIN < a → a ≤ INT_MAX → ¬(a = INT_MAX ∧ b = INT_MAX) →
      FST_MINUS_ONE_INT a b = a - 1) := by
  refine ⟨?_, ?_, ?_, ?_, ?_⟩
  · intro x
    unfold MIN_NON_MAX_INT; rw [if_pos (Or.inl rfl)]
  · intro x
    unfold FIRST_NON_MAX_INT; rw [if_pos (Or.inr rfl)]
  · unfold FST_MINUS_ONE_INT; rw [if_pos ⟨rfl, rfl⟩]
  · intro a b h
    unfold FST_MINUS_ONE_INT; rw [if_neg h]
  · intro a b ha1 ha2 h
    unfold FST_MINUS_ONE_INT
    rw [if_neg h]
    refine wrap32_eq_self ?_ ?_
    · simp only [INT_MIN] at *; omega
    · simp only [INT_MAX] at *; omega

/-- C3 witness: the sentinel algebra at concrete inputs. -/
theorem sentinel_ops_algebra_witness :
    MIN_NON_MAX_INT INT_MAX 3 = INT_MAX ∧
    FIRST_NON_MAX_INT 3 INT_MAX = INT_MAX ∧
    FST_MINUS_ONE_INT INT_MAX INT_MAX = INT_MAX ∧
    ¬((5 : Int) = INT_MAX ∧ (7 : Int) = INT_MAX) ∧
    INT_MIN < (5 : Int) ∧ (5 : Int) ≤ INT_MAX ∧
    FST_MINUS_ONE_INT 5 7 = 5 - 1 := by
  have h := sentinel_ops_algebra
  exact ⟨h.1 3, h.2.1 3, h.2.2.1, by decide, by decide, by decide,
    h.2.2.2.2 5 7 (by decide) (by decide) (by decide)⟩

/-! ## Claims about the bit-packed weighted-value operators -/

/-- C4: for 32-bit words `a` and `b`, `SELECT_MIN_WEIGHT_UINT` returns the
operand whose high 11-bit weight field (`word >> 21`) is smaller, and on
equal weights (ties included in the first branch) it returns `a`'s packed
word bit-for-bit unchanged. -/
theorem select_min_weight_returns_operand (a b : Nat)
    (ha : a < 4294967296) (hb : b < 4294967296) :
    (a >>> 21 ≤ b >>> 21 → SELECT_MIN_WEIGHT_UINT a b = a) ∧
    (b >>> 21 < a >>> 21 → SELECT_MIN_WEIGHT_UINT a b = b) := by
  constructor
  · intro h
    simp only [SELECT_MIN_WEIGHT_UINT]
    rw [if_pos h, repack_split, Nat.mod_eq_of_lt ha]
  · intro h
    simp only [SELECT_MIN_WEIGHT_UINT]
    rw [if_neg (by omega), repack_split, Nat.mod_eq_of_lt hb]

/-- C4 witness: at `a = (1 << 21) + 5` and `b = (2 << 21) + 7` the smaller
weight is `a`'s, and the word `a` itself is returned; swapping the operands
returns `a` as the second argument. -/
theorem select_min_weight_returns_operand_witness :
    (2097157 : Nat) < 4294967296 ∧ (4194311 : Nat) < 4294967296 ∧
    (2097157 : Nat) >>> 21 ≤ (4194311 : Nat) >>> 21 ∧
    SELECT_MIN_WEIGHT_UINT 2097157 4194311 = 2097157 ∧
    (2097157 : Nat) >>> 21 < (4194311 : Nat) >>> 21 ∧
    SELECT_MIN_WEIGHT_UINT 4194311 2097157 = 2097157 := by
  refine ⟨by decide, by decide, by decide, ?_, by decide, ?_⟩
  · exact (select_min_weight_returns_operand 2097157 4194311
      (by decide) (by decide)).1 (by decide)
  · exact (select_min_weight_returns_operand 4194311 2097157
      (by decide) (by decide)).2 (by decide)

/-- C5: for every `weight` in `[0, 2047]` and `value` in `[0, 2^21 - 1]`,
packing as `word = (weight << 21) | value` and unpacking with the code's
expressions `word >> 21` and `word & 0x1FFFFF` restores the original pair. -/
theorem pack_unpack_round_trip (weight value : Nat)
    (hw : weight ≤ 2047) (hv : value ≤ 2 ^ 21 - 1) :
    unpack (pack weight value) = (weight, value) := by
  have hv' : value < 2 ^ 21 := by omega
  have hpack : pack weight value = 2 ^ 21 * weight + value := by
    unfold pack
    rw [Nat.shiftLeft_eq, Nat.mul_comm]
    exact (Nat.mul_add_lt_is_or hv' weight).symm
  have h1 : (2 ^ 21 * weight + value) / 2 ^ 21 = weight := by
    rw [Nat.mul_add_div (by norm_num), Nat.div_eq_of_lt hv', Nat.add_zero]
  have h2 : (2 ^ 21 * weight + value) % 2 ^ 21 = value := by
    rw [Nat.mul_add_mod, Nat.mod_eq_of_lt hv']
  unfold unpack
  rw [hpack, Nat.shiftRight_eq_div_pow, and_mask21, h1, h2]

/-- C5 witness: the round trip at `weight = 3`, `value = 5`. -/
theorem pack_unpack_round_trip_witness :
    (3 : Nat) ≤ 2047 ∧ (5 : Nat) ≤ 2 ^ 21 - 1 ∧
    unpack (pack 3 5) = (3, 5) :=
  ⟨by decide, by decide, pack_unpack_round_trip 3 5 (by decide) (by decide)⟩

/-! ## Claims about operation keys -/

/-- String append is associative. -/
theorem string_append_assoc (a b c : String) : a ++ b ++ c = a ++ (b ++ c) :=
  String.ext (by simp)

/-- Two key suffixes of the same variant have the same length. -/
theorem keySuffix_length_eq (v : Variant) (d₁ d₂ : Domain) :
    (keySuffix v d₁).data.length = (keySuffix v d₂).data.length := by
  cases v <;> cases d₁ <;> cases d₂ <;> decide

/-- C6: each factory's key is `opKey` of its variant, name and domain, and
within a variant two invocations produce equal keys exactly when both the
name and the domain family agree — so equal name and domain give equal keys,
and a different name or a different domain gives a different key. -/
theorem key_determinism_distinctness :
    ((∀ (n s : String) (f : Int → Int),
        (OpUnary.make_int n s f).key = opKey Variant.unary n Domain.int) ∧
     (∀ (n s : String) (f : Nat → Nat),
        (OpUnary.make_uint n s f).key = opKey Variant.unary n Domain.uint) ∧
     (∀ (n s : String) (f : FloatVal → FloatVal),
        (OpUnary.make_float n s f).key = opKey Variant.unary n Domain.float) ∧
     (∀ (n s : String) (f : Int → Int → Int),
        (OpBinary.make_int n s f).key = opKey Variant.binary n Domain.int) ∧
     (∀ (n s : String) (f : Nat → Nat → Nat),
        (OpBinary.make_uint n s f).key = opKey Variant.binary n Domain.uint) ∧
     (∀ (n s : String) (f : FloatVal → FloatVal → FloatVal),
        (OpBinary.make_float n s f).key = opKey Variant.binary n Domain.float) ∧
     (∀ (n s : String) (f : Int → Bool),
        (OpSelect.make_int n s f).key = opKey Variant.select n Domain.int) ∧
     (∀ (n s : String) (f : Nat → Bool),
        (OpSelect.make_uint n s f).key = opKey Variant.select n Domain.uint) ∧
     (∀ (n s : String) (f : FloatVal → Bool),
        (OpSelect.make_float n s f).key = opKey Variant.select n Domain.float)) ∧
    (∀ (v : Variant) (n₁ n₂ : String) (d₁ d₂ : Domain),
      opKey v n₁ d₁ = opKey v n₂ d₂ ↔ n₁ = n₂ ∧ d₁ = d₂) := by
  constructor
  · refine ⟨?_, ?_, ?_, ?_, ?_, ?_, ?_, ?_, ?_⟩ <;>
      (intro n s f
       apply String.ext
       simp [OpUnary.make_int, OpUnary.make_uint, OpUnary.make_float,
         OpBinary.make_int, OpBinary.make_uint, OpBinary.make_float,
         OpSelect.make_int, OpSelect.make_uint, OpSelect.make_float,
         opKey, keySuffix, domCode])
  · intro v n₁ n₂ d₁ d₂
    constructor
    · intro h
      have hd : n₁.data ++ (keySuffix v d₁).data
          = n₂.data ++ (keySuffix v d₂).data := by
        have hc := congrArg String.data h
        simpa [opKey] using hc
      obtain ⟨h1, h2⟩ := List.append_inj' hd (keySuffix_length_eq v d₁ d₂)
      refine ⟨String.ext h1, ?_⟩
      have hsfx : keySuffix v d₁ = keySuffix v d₂ := String.ext h2
      revert hsfx
      cases v <;> cases d₁ <;> cases d₂ <;> decide
    · rintro ⟨rfl, rfl⟩
      rfl

/-- C6 witness: same name and domain give the same key, while changing the
name or the domain changes the key, at concrete unary invocations. -/
theorem key_determinism_distinctness_witness :
    opKey Variant.unary "PLUS" Domain.int
      = opKey Variant.unary "PLUS" Domain.int ∧
    opKey Variant.unary "PLUS" Domain.int
      ≠ opKey Variant.unary "MINUS" Domain.int ∧
    opKey Variant.unary "PLUS" Domain.int
      ≠ opKey Variant.unary "PLUS" Domain.uint := by
  have h := key_determinism_distinctness.2
  refine ⟨rfl, fun hc => ?_, fun hc => ?_⟩
  · exact absurd
      ((h Variant.unary "PLUS" "MINUS" Domain.int Domain.int).mp hc).1
      (by decide)
  · exact absurd
      ((h Variant.unary "PLUS" "PLUS" Domain.int Domain.uint).mp hc).2
      (by decide)

/-- C1 counterexample: the key of the built-in-style select operation
`EQZERO` on the signed-integer domain is `"EQZERO_I"` — the argument type
code only — whereas the claim's key, with the boolean result type code
appended, would be `"EQZERO_IB"`; the two differ. -/
theorem select_key_omits_result_code :
    (OpSelect.make_int "EQZERO" "return a == 0;"
      (fun a => decide (a = 0))).key = "EQZERO_I" ∧
    specSelectKeyInt "EQZERO" = "EQZERO_IB" ∧
    (OpSelect.make_int "EQZERO" "return a == 0;"
      (fun a => decide (a = 0))).key ≠ specSelectKeyInt "EQZERO" :=
  ⟨by decide, by decide, by decide⟩

/-- C1 (amended): for unary and binary operations the factory key is the
name concatenated (through `"_"`) with the type codes of the argument(s) and
of the result; for select operations the key is the name concatenated with
the argument type code only — the boolean result type code is not
appended. -/
theorem factory_key_shapes :
    (∀ (n s : String) (f : Int → Int),
      (OpUnary.make_int n s f).key = n ++ "_" ++ codeInt ++ codeInt) ∧
    (∀ (n s : String) (f : Nat → Nat),
      (OpUnary.make_uint n s f).key = n ++ "_" ++ codeUint ++ codeUint) ∧
    (∀ (n s : String) (f : FloatVal → FloatVal),
      (OpUnary.make_float n s f).key = n ++ "_" ++ codeFloat ++ codeFloat) ∧
    (∀ (n s : String) (f : Int → Int → Int),
      (OpBinary.make_int n s f).key
        = n ++ "_" ++ codeInt ++ codeInt ++ codeInt) ∧
    (∀ (n s : String) (f : Nat → Nat → Nat),
      (OpBinary.make_uint n s f).key
        = n ++ "_" ++ codeUint ++ codeUint ++ codeUint) ∧
    (∀ (n s : String) (f : FloatVal → FloatVal → FloatVal),
      (OpBinary.make_float n s f).key
        = n ++ "_" ++ codeFloat ++ codeFloat ++ codeFloat) ∧
    (∀ (n s : String) (f : Int → Bool),
      (OpSelect.make_int n s f).key = n ++ "_" ++ codeInt) ∧
    (∀ (n s : String) (f : Nat → Bool),
      (OpSelect.make_uint n s f).key = n ++ "_" ++ codeUint) ∧
    (∀ (n s : String) (f : FloatVal → Bool),
      (OpSelect.make_float n s f).key = n ++ "_" ++ codeFloat) := by
  refine ⟨?_, ?_, ?_, ?_, ?_, ?_, ?_, ?_, ?_⟩ <;> intro n s f <;> rfl

/-- C7 counterexample: a factory invocation with an empty name does not fail
— it returns an ordinary operation object with empty name and key `"_II"`.
The factory's return type has no failure channel at all. -/
theorem empty_name_not_rejected :
    OpUnary.make_int "" "" (fun a => a)
      = { name := "", source := "", function := fun a => a,
          key := "_II" } := by
  simp only [OpUnary.make_int, TOpUnary.mk.injEq]
  refine ⟨trivial, trivial, trivial, by decide⟩

/-- C7 (amended): the factories perform no validation of `name`: an
invocation with the empty name succeeds and produces an operation object
whose name is empty and whose key is `"_"` followed by the type codes; no
`InvalidArgument` status is reported. -/
theorem empty_name_factories :
    (∀ (s : String) (f : Int → Int), (OpUnary.make_int "" s f).name = "" ∧
      (OpUnary.make_int "" s f).key = "_" ++ codeInt ++ codeInt) ∧
    (∀ (s : String) (f : Nat → Nat), (OpUnary.make_uint "" s f).name = "" ∧
      (OpUnary.make_uint "" s f).key = "_" ++ codeUint ++ codeUint) ∧
    (∀ (s : String) (f : FloatVal → FloatVal),
      (OpUnary.make_float "" s f).name = "" ∧
      (OpUnary.make_float "" s f).key = "_" ++ codeFloat ++ codeFloat) ∧
    (∀ (s : String) (f : Int → Int → Int),
      (OpBinary.make_int "" s f).name = "" ∧
      (OpBinary.make_int "" s f).key = "_" ++ codeInt ++ codeInt ++ codeInt) ∧
    (∀ (s : String) (f : Nat → Nat → Nat),
      (OpBinary.make_uint "" s f).name = "" ∧
      (OpBinary.make_uint "" s f).key
        = "_" ++ codeUint ++ codeUint ++ codeUint) ∧
    (∀ (s : String) (f : FloatVal → FloatVal → FloatVal),
      (OpBinary.make_float "" s f).name = "" ∧
      (OpBinary.make_float "" s f).key
        = "_" ++ codeFloat ++ codeFloat ++ codeFloat) ∧
    (∀ (s : String) (f : Int → Bool), (OpSelect.make_int "" s f).name = "" ∧
      (OpSelect.make_int "" s f).key = "_" ++ codeInt) ∧
    (∀ (s : String) (f : Nat → Bool), (OpSelect.make_uint "" s f).name = "" ∧
      (OpSelect.make_uint "" s f).key = "_" ++ codeUint) ∧
    (∀ (s : String) (f : FloatVal → Bool),
      (OpSelect.make_float "" s f).name = "" ∧
      (OpSelect.make_float "" s f).key = "_" ++ codeFloat) := by
  refine ⟨?_, ?_, ?_, ?_, ?_, ?_, ?_, ?_, ?_⟩ <;>
    (intro s f
     exact ⟨rfl, by apply String.ext; simp [OpUnary.make_int,
       OpUnary.make_uint, OpUnary.make_float, OpBinary.make_int,
       OpBinary.make_uint, OpBinary.make_float, OpSelect.make_int,
       OpSelect.make_uint, OpSelect.make_float]⟩)

/-! ## Claims about the built-in select catalog -/

/-- C8 counterexample: no select operation registered for the float domain
has, as its host function, the pointwise negation of `EQUALS_MINF_FLOAT`'s
sentinel test — `register_ops` registers the float sentinel-equality
predicate but no negated counterpart. -/
theorem no_negated_minf_float_select :
    ¬ ∃ op, op ∈ registeredSelectsFloat ∧
      ∀ x : FloatVal, op.function x = ! EQUALS_MINF_FLOAT.function x := by
  rintro ⟨op, hmem, hall⟩
  simp only [registeredSelectsFloat, List.mem_cons, List.not_mem_nil,
    or_false] at hmem
  rcases hmem with rfl | rfl | rfl | rfl | rfl | rfl | rfl | rfl | rfl
  · exact absurd (hall (FloatVal.num 1)) (by decide)
  · exact absurd (hall FloatVal.minf) (by decide)
  · exact absurd (hall (FloatVal.num 0)) (by decide)
  · exact absurd (hall (FloatVal.num (-1))) (by decide)
  · exact absurd (hall FloatVal.minf) (by decide)
  · exact absurd (hall FloatVal.minf) (by decide)
  · exact absurd (hall FloatVal.minf) (by decide)
  · exact absurd (hall (FloatVal.num 1)) (by decide)
  · exact absurd (hall FloatVal.minf) (by decide)

/-- C8 (amended): for the signed- and unsigned-integer domains the built-in
select catalog contains both the sentinel-equality predicate and its
pointwise negation; for the float domain it contains the equality-to-
negative-infinity predicate `EQUALS_MINF_FLOAT`, but no negated float
predicate is registered. -/
theorem sentinel_select_catalog_amended :
    EQUALS_MAX_INT ∈ registeredSelectsInt ∧
    NEQUALS_MAX_INT ∈ registeredSelectsInt ∧
    (∀ a : Int, EQUALS_MAX_INT.function a = decide (a = INT_MAX)) ∧
    (∀ a : Int, NEQUALS_MAX_INT.function a = ! EQUALS_MAX_INT.function a) ∧
    EQUALS_MAX_UINT ∈ registeredSelectsUint ∧
    NEQUALS_MAX_UINT ∈ registeredSelectsUint ∧
    (∀ a : Nat, EQUALS_MAX_UINT.function a = decide (a = UINT_MAX)) ∧
    (∀ a : Nat, NEQUALS_MAX_UINT.function a = ! EQUALS_MAX_UINT.function a) ∧
    EQUALS_MINF_FLOAT ∈ registeredSelectsFloat ∧
    (∀ x : FloatVal,
      EQUALS_MINF_FLOAT.function x = decide (x = FloatVal.minf)) := by
  refine ⟨by simp [registeredSelectsInt], by simp [registeredSelectsInt],
    fun a => rfl, ?_, by simp [registeredSelectsUint],
    by simp [registeredSelectsUint], fun a => rfl, ?_,
    by simp [registeredSelectsFloat], fun x => rfl⟩
  · intro a
    simp [NEQUALS_MAX_INT, EQUALS_MAX_INT, OpSelect.make_int, decide_not]
  · intro a
    simp [NEQUALS_MAX_UINT, EQUALS_MAX_UINT, OpSelect.make_uint, decide_not]

/-! ## Claims about the schedule -/

/-- C9: on a non-submitted schedule, `step_task` and `step_tasks` applied to
a malformed task (argument count differing from the operation arity), or to
a collection containing one, fail synchronously with `InvalidArgument` and
leave the schedule — in particular its accumulated step sequence — exactly
as it was. -/
theorem schedule_step_fail_leaves_steps :
    (∀ (s : Schedule) (t : ScheduleTask), s.submitted = false →
      taskValid t = false →
      (step_task s t).1 = Status.InvalidArgument ∧ (step_task s t).2 = s) ∧
    (∀ (s : Schedule) (ts : List ScheduleTask), s.submitted = false →
      ts.all taskValid = false →
      (step_tasks s ts).1 = Status.InvalidArgument ∧
      (step_tasks s ts).2 = s) := by
  constructor
  · intro s t _ hbad
    unfold step_task
    rw [if_neg (by simp [hbad])]
    exact ⟨rfl, rfl⟩
  · intro s ts _ hbad
    unfold step_tasks
    rw [if_neg (by simp [hbad])]
    exact ⟨rfl, rfl⟩

/-- C9 witness: an empty, non-submitted schedule and a task binding no
arguments to a binary (arity-2) operation. -/
theorem schedule_step_fail_leaves_steps_witness :
    (Schedule.mk [] false).submitted = false ∧
    taskValid (ScheduleTask.mk "PLUS" 2 []) = false ∧
    (step_task (Schedule.mk [] false) (ScheduleTask.mk "PLUS" 2 [])).1
      = Status.InvalidArgument ∧
    (step_task (Schedule.mk [] false) (ScheduleTask.mk "PLUS" 2 [])).2
      = Schedule.mk [] false ∧
    List.all [ScheduleTask.mk "PLUS" 2 []] taskValid = false ∧
    (step_tasks (Schedule.mk [] false) [ScheduleTask.mk "PLUS" 2 []]).1
      = Status.InvalidArgument ∧
    (step_tasks (Schedule.mk [] false) [ScheduleTask.mk "PLUS" 2 []]).2
      = Schedule.mk [] false := by
  have h1 := (schedule_step_fail_leaves_steps).1 (Schedule.mk [] false)
    (ScheduleTask.mk "PLUS" 2 []) rfl (by decide)
  have h2 := (schedule_step_fail_leaves_steps).2 (Schedule.mk [] false)
    [ScheduleTask.mk "PLUS" 2 []] rfl (by decide)
  exact ⟨rfl, by decide, h1.1, h1.2, by decide, h2.1, h2.2⟩

/-! ## Claims about unguarded division -/

/-- C10: the host functions of the built-in division and multiplicative-
inverse operations are defined (return a value rather than hitting the
division-by-zero branch) exactly when the divisor is non-zero, and the
factories store the supplied host function unchanged — no zero-divisor
guard is added anywhere. -/
theorem unguarded_division_and_minv :
    (∀ a b : Int, (DIV_INT a b).isSome = true ↔ b ≠ 0) ∧
    (∀ a b : Nat, (DIV_UINT a b).isSome = true ↔ b ≠ 0) ∧
    (∀ a : Int, (MINV_INT a).isSome = true ↔ a ≠ 0) ∧
    (∀ a : Nat, (MINV_UINT a).isSome = true ↔ a ≠ 0) ∧
    (∀ (n s : String) (f : Int → Int → Int),
      (OpBinary.make_int n s f).function = f) ∧
    (∀ (n s : String) (f : Nat → Nat → Nat),
      (OpBinary.make_uint n s f).function = f) ∧
    (∀ (n s : String) (f : Int → Int),
      (OpUnary.make_int n s f).function = f) ∧
    (∀ (n s : String) (f : Nat → Nat),
      (OpUnary.make_uint n s f).function = f) := by
  refine ⟨?_, ?_, ?_, ?_, ?_, ?_, ?_, ?_⟩
  case refine_5 => intro n s f; rfl
  case refine_6 => intro n s f; rfl
  case refine_7 => intro n s f; rfl
  case refine_8 => intro n s f; rfl
  · intro a b
    by_cases hb : b = 0 <;> simp [DIV_INT, hb]
  · intro a b
    by_cases hb : b = 0 <;> simp [DIV_UINT, hb]
  · intro a
    by_cases ha : a = 0 <;> simp [MINV_INT, ha]
  · intro a
    by_cases ha : a = 0 <;> simp [MINV_UINT, ha]

/-- C10 witness: division and inverse are defined at non-zero divisors and
hit the undefined branch at zero. -/
theorem unguarded_division_and_minv_witness :
    (DIV_INT 7 2).isSome = true ∧ DIV_INT 7 0 = none ∧
    (DIV_UINT 7 2).isSome = true ∧ (MINV_INT 3).isSome = true ∧
    (MINV_UINT 3).isSome = true ∧ MINV_INT 0 = none := by
  have h := unguarded_division_and_minv
  exact ⟨(h.1 7 2).mpr (by decide), rfl, (h.2.1 7 2).mpr (by decide),
    (h.2.2.1 3).mpr (by decide), (h.2.2.2.1 3).mpr (by decide), rfl⟩

end Spla
